import Mathlib

/-!
Verification of the DeltaJambo bounded-forward market contracts.

The definitions below are a shallow embedding of the two core contracts,
`contracts/forward-market/src/lib.rs` (the market engine) and
`contracts/forward-factory/src/lib.rs` (the deployment orchestrator).
Account ids are embedded as `String` and `u128` values as `Nat`.  The
contracts run with checked 128-bit arithmetic (the specification requires
that an operation which would overflow abort the call instead of wrapping),
so every addition, subtraction and multiplication of `u128` values that can
leave `[0, 2^128)` is guarded explicitly: the guard failing corresponds to
the Rust call panicking, embedded as `Except.error CallError.arithmeticOverflow`.
-/

namespace DeltaJambo

/-- The fixed-point scale `10_u128.pow(24)` used by the market engine. -/
def SCALE : Nat := 10 ^ 24

/-- Number of values of `u128`; checked `u128` arithmetic aborts at this bound. -/
def U128_MOD : Nat := 2 ^ 128

/-- `MarketParams` from `forward-market/src/lib.rs` (the factory declares the
same structure).  Fee fields are `u16` basis points. -/
structure MarketParams where
  underlying : String
  quote : String
  maturity : Nat
  strike_k : Nat
  lower_bound_l : Nat
  upper_bound_u : Nat
  mint_fee_bps : Nat
  settle_fee_bps : Nat
  redeem_fee_bps : Nat
deriving Repr, DecidableEq

/-- `MarketState` from `forward-market/src/lib.rs`. -/
structure MarketState where
  is_settled : Bool
  settlement_price : Option Nat
  settlement_factor : Option Nat
  total_collateral : Nat
  long_token_supply : Nat
  short_token_supply : Nat
  paused_mint : Bool
  paused_settle : Bool
deriving Repr, DecidableEq

/-- `ActionType` from `forward-market/src/lib.rs`. -/
inductive ActionType where
  | Mint
  | Redeem
deriving Repr, DecidableEq

/-- `PendingAction` from `forward-market/src/lib.rs`. -/
structure PendingAction where
  account : String
  amount : Nat
  action_type : ActionType
deriving Repr, DecidableEq

/-- Association-list lookup, embedding `UnorderedMap::get`. -/
def alLookup {β : Type} (k : String) : List (String × β) → Option β
  | [] => none
  | (k2, v) :: rest => if k2 = k then some v else alLookup k rest

/-- Association-list removal, embedding `UnorderedMap::remove`. -/
def alRemove {β : Type} (k : String) : List (String × β) → List (String × β)
  | [] => []
  | (k2, v) :: rest => if k2 = k then alRemove k rest else (k2, v) :: alRemove k rest

/-- Association-list insertion, embedding `UnorderedMap::insert` (which
replaces any entry already stored under the key). -/
def alInsert {β : Type} (k : String) (v : β) (l : List (String × β)) : List (String × β) :=
  (k, v) :: alRemove k l

/-- The persistent fields of the `ForwardMarket` contract. -/
structure Contract where
  params : MarketParams
  state : MarketState
  long_token : String
  short_token : String
  oracle : String
  fee_collector : String
  owner : String
  guardian : String
  user_deposits : List (String × Nat)
  pending_actions : List (String × PendingAction)
deriving Repr, DecidableEq

/-- Errors: each constructor corresponds to one `require!`/`assert!`/`expect`
message in the source, plus `arithmeticOverflow` for a checked-`u128` abort. -/
inductive CallError where
  | mintingPaused
  | marketSettled
  | amountNotPositive
  | marketNotSettled
  | noTokensToRedeem
  | settlementFactorNotSet
  | insufficientCollateral
  | settlementPaused
  | alreadySettled
  | notMatureYet
  | wrongToken
  | invalidBounds
  | strikeBelowLowerBound
  | strikeAboveUpperBound
  | maturityInPast
  | arithmeticOverflow
deriving Repr, DecidableEq

/-- `ForwardMarket::calculate_settlement_factor`: clamped piecewise-linear
interpolation between the band bounds.  On the interior branch the source
multiplies `(price - l) * 10_u128.pow(24)` in checked `u128` arithmetic, so
the call aborts when that product reaches `2^128`; the two clamp branches
and the subtraction `price - l` (taken only when `l < price`) cannot
overflow. -/
def calculate_settlement_factor (p : MarketParams) (price : Nat) :
    Except CallError Nat :=
  if price ≤ p.lower_bound_l then .ok 0
  else if p.upper_bound_u ≤ price then .ok SCALE
  else if (price - p.lower_bound_l) * SCALE < U128_MOD then
    .ok ((price - p.lower_bound_l) * SCALE / (p.upper_bound_u - p.lower_bound_l))
  else .error .arithmeticOverflow

/-- `ForwardMarket::calculate_payout` (a pure function of its arguments; the
`&self` receiver in the source is unused).  For `settlement_factor ≤ SCALE`
the `Nat` truncated subtraction agrees with the checked `u128` subtraction
in the source. -/
def calculate_payout (amount settlement_factor : Nat) (is_long : Bool) : Nat :=
  if is_long then amount * settlement_factor / SCALE
  else amount * (SCALE - settlement_factor) / SCALE

/-- `ForwardMarket::new`.  The four `require!` checks, then the initial state. -/
def ForwardMarket.new (params : MarketParams)
    (long_token short_token oracle fee_collector owner guardian : String)
    (block_timestamp : Nat) : Except CallError Contract :=
  if ¬ (params.lower_bound_l < params.upper_bound_u) then .error .invalidBounds
  else if ¬ (params.lower_bound_l ≤ params.strike_k) then .error .strikeBelowLowerBound
  else if ¬ (params.strike_k ≤ params.upper_bound_u) then .error .strikeAboveUpperBound
  else if ¬ (block_timestamp < params.maturity) then .error .maturityInPast
  else .ok
    { params := params,
      state :=
        { is_settled := false,
          settlement_price := none,
          settlement_factor := none,
          total_collateral := 0,
          long_token_supply := 0,
          short_token_supply := 0,
          paused_mint := false,
          paused_settle := false },
      long_token := long_token,
      short_token := short_token,
      oracle := oracle,
      fee_collector := fee_collector,
      owner := owner,
      guardian := guardian,
      user_deposits := [],
      pending_actions := [] }

/-- `ForwardMarket::create_position`: guards, then registration of the
pending action under the tag `format!("mint_{}", env::block_index())`.
The returned string is the correlation tag attached to the transfer. -/
def create_position (c : Contract) (caller : String) (amount : Nat)
    (block_index : Nat) : Except CallError (Contract × String) :=
  if c.state.paused_mint then .error .mintingPaused
  else if c.state.is_settled then .error .marketSettled
  else if ¬ (0 < amount) then .error .amountNotPositive
  else
    let action_id := "mint_" ++ Nat.repr block_index
    .ok ({ c with
           pending_actions :=
             alInsert action_id
               ({ account := caller, amount := amount, action_type := ActionType.Mint })
               c.pending_actions },
         action_id)

/-- The synchronous part of `ForwardMarket::settle`: the three `require!`
guards.  `.ok ()` means the call was accepted and an oracle request with the
`on_price_received` continuation has been scheduled. -/
def settle (c : Contract) (block_timestamp : Nat) : Except CallError Unit :=
  if c.state.paused_settle then .error .settlementPaused
  else if c.state.is_settled then .error .alreadySettled
  else if ¬ (c.params.maturity ≤ block_timestamp) then .error .notMatureYet
  else .ok ()

/-- `ForwardMarket::set_paused` (the owner/guardian authorization guard does
not touch the market state and is omitted). -/
def set_paused (c : Contract) (pause_mint pause_settle : Bool) : Contract :=
  { c with state := { c.state with paused_mint := pause_mint, paused_settle := pause_settle } }

/-- `ForwardMarket::finalize_settlement`, the continuation run by
`on_price_received` when the oracle returned a price.  Note that it performs
no `is_settled` test of its own.  An abort inside the factor computation
aborts the whole call.  The returned option is the fee-ledger notification
issued when the settle fee is positive. -/
def finalize_settlement (c : Contract) (price : Nat) :
    Except CallError (Contract × Option Nat) :=
  match calculate_settlement_factor c.params price with
  | .error e => .error e
  | .ok settlement_factor =>
  if ¬ (c.state.total_collateral * c.params.settle_fee_bps < U128_MOD) then
    .error .arithmeticOverflow
  else
    let fee := c.state.total_collateral * c.params.settle_fee_bps / 10000
    if ¬ (fee ≤ c.state.total_collateral) then .error .arithmeticOverflow
    else .ok
      ({ c with
         state :=
           { c.state with
             is_settled := true,
             settlement_price := some price,
             settlement_factor := some settlement_factor,
             total_collateral := c.state.total_collateral - fee } },
       if 0 < fee then some fee else none)

/-- The value `long_payout + short_payout` computed by `ForwardMarket::redeem`. -/
def redeem_total_payout (long_amount short_amount f : Nat) : Nat :=
  calculate_payout long_amount f true + calculate_payout short_amount f false

/-- The redemption fee `floor(total_payout * redeem_fee_bps / 10000)`. -/
def redeem_fee (p : MarketParams) (long_amount short_amount f : Nat) : Nat :=
  redeem_total_payout long_amount short_amount f * p.redeem_fee_bps / 10000

/-- The net payout `total_payout - fee` transferred to the redeemer. -/
def redeem_net (p : MarketParams) (long_amount short_amount f : Nat) : Nat :=
  redeem_total_payout long_amount short_amount f - redeem_fee p long_amount short_amount f

/-- The cross-contract calls issued by one `redeem` call. -/
structure RedeemEffects where
  burn_long : Option Nat
  burn_short : Option Nat
  fee_record : Option Nat
  transfer_net : Nat
deriving Repr, DecidableEq

/-- `ForwardMarket::redeem`.  The first `arithmeticOverflow` guard bundles
the checked multiplications and subtractions that occur while computing
`long_payout`, `short_payout`, `total_payout`, `fee` and `net_payout`; they
all precede the collateral guard in the source.  The final guard is the
checked subtraction `total_collateral -= total_payout`, which in the source
happens only after the `Insufficient collateral` check has passed. -/
def redeem (c : Contract) (long_amount short_amount : Nat) :
    Except CallError (Contract × RedeemEffects) :=
  if ¬ c.state.is_settled then .error .marketNotSettled
  else if ¬ (0 < long_amount ∨ 0 < short_amount) then .error .noTokensToRedeem
  else match c.state.settlement_factor with
  | none => .error .settlementFactorNotSet
  | some f =>
    if ¬ (f ≤ SCALE ∧ long_amount * f < U128_MOD ∧
          short_amount * (SCALE - f) < U128_MOD ∧
          redeem_total_payout long_amount short_amount f < U128_MOD ∧
          redeem_total_payout long_amount short_amount f * c.params.redeem_fee_bps < U128_MOD ∧
          redeem_fee c.params long_amount short_amount f ≤
            redeem_total_payout long_amount short_amount f) then
      .error .arithmeticOverflow
    else if ¬ (redeem_net c.params long_amount short_amount f ≤ c.state.total_collateral) then
      .error .insufficientCollateral
    else if ¬ (redeem_total_payout long_amount short_amount f ≤ c.state.total_collateral) then
      .error .arithmeticOverflow
    else .ok
      ({ c with
         state :=
           { c.state with
             total_collateral :=
               c.state.total_collateral - redeem_total_payout long_amount short_amount f } },
       { burn_long := if 0 < long_amount then some long_amount else none,
         burn_short := if 0 < short_amount then some short_amount else none,
         fee_record := if 0 < redeem_fee c.params long_amount short_amount f then
             some (redeem_fee c.params long_amount short_amount f) else none,
         transfer_net := redeem_net c.params long_amount short_amount f })

/-- The cross-contract calls issued by one reconciliation of an incoming
transfer: mint requests on the two claim ledgers and an optional fee record. -/
structure MintEffects where
  mint_long : Option (String × Nat)
  mint_short : Option (String × Nat)
  fee_record : Option Nat
deriving Repr, DecidableEq

/-- The empty effect set of a refused (refund-by-non-consumption) transfer. -/
def noMintEffects : MintEffects :=
  { mint_long := none, mint_short := none, fee_record := none }

/-- `ForwardMarket::ft_on_transfer` (the `FungibleTokenReceiver` impl).
`caller` is the predecessor account (the token contract).  The last
component of the result is the unconsumed amount reported back to the token
(`U128(0)` on a reconciled mint, the full amount otherwise). -/
def ft_on_transfer (c : Contract) (caller sender_id : String) (amount : Nat)
    (msg : String) : Except CallError (Contract × MintEffects × Nat) :=
  if ¬ (caller = c.params.quote) then .error .wrongToken
  else match alLookup msg c.pending_actions with
  | none => .ok (c, (noMintEffects, amount))
  | some action =>
    if action.account = sender_id ∧ action.amount = amount then
      match action.action_type with
      | ActionType.Redeem => .ok (c, (noMintEffects, amount))
      | ActionType.Mint =>
        if ¬ (amount * c.params.mint_fee_bps < U128_MOD) then .error .arithmeticOverflow
        else
          let fee := amount * c.params.mint_fee_bps / 10000
          if ¬ (fee ≤ amount) then .error .arithmeticOverflow
          else
            let net_amount := amount - fee
            if ¬ (c.state.total_collateral + net_amount < U128_MOD ∧
                  c.state.long_token_supply + net_amount < U128_MOD ∧
                  c.state.short_token_supply + net_amount < U128_MOD ∧
                  (alLookup sender_id c.user_deposits).getD 0 + net_amount < U128_MOD) then
              .error .arithmeticOverflow
            else .ok
              ({ c with
                 state :=
                   { c.state with
                     total_collateral := c.state.total_collateral + net_amount,
                     long_token_supply := c.state.long_token_supply + net_amount,
                     short_token_supply := c.state.short_token_supply + net_amount },
                 user_deposits :=
                   alInsert sender_id
                     ((alLookup sender_id c.user_deposits).getD 0 + net_amount)
                     c.user_deposits,
                 pending_actions := alRemove msg c.pending_actions },
               ({ mint_long := some (sender_id, net_amount),
                  mint_short := some (sender_id, net_amount),
                  fee_record := if 0 < fee then some fee else none },
                0))
    else .ok (c, (noMintEffects, amount))

/-! ### The deployment orchestrator (`forward-factory/src/lib.rs`) -/

/-- `MARKET_STORAGE` from `forward-factory/src/lib.rs`. -/
def MARKET_STORAGE : Nat := 10000000000000000000000000

/-- `TOKEN_STORAGE` from `forward-factory/src/lib.rs`. -/
def TOKEN_STORAGE : Nat := 5000000000000000000000000

/-- `MarketInfo` from `forward-factory/src/lib.rs`. -/
structure MarketInfo where
  market_id : String
  long_token : String
  short_token : String
  params : MarketParams
  created_at : Nat
  creator : String
deriving Repr, DecidableEq

/-- The persistent fields of the `ForwardFactory` contract.  Code blobs are
byte lists. -/
structure FactoryState where
  owner : String
  oracle : String
  fee_collector : String
  guardian : String
  markets : List (String × MarketInfo)
  markets_by_creator : List (String × List String)
  all_market_keys : List String
  market_code : List Nat
  long_token_code : List Nat
  short_token_code : List Nat
  paused : Bool
  deploy_counter : Nat
deriving Repr, DecidableEq

/-- Set insertion, embedding `UnorderedSet::insert`. -/
def keyInsert (k : String) (l : List String) : List String :=
  if k ∈ l then l else l ++ [k]

/-- `ForwardFactory::compute_market_key`: the dedupe key
`format!("{}:{}:{}:{}:{}:{}", underlying, quote, maturity, strike_k,
lower_bound_l, upper_bound_u)`.  Fee fields do not occur in it. -/
def compute_market_key (p : MarketParams) : String :=
  p.underlying ++ ":" ++ p.quote ++ ":" ++ Nat.repr p.maturity ++ ":" ++
    Nat.repr p.strike_k ++ ":" ++ Nat.repr p.lower_bound_l ++ ":" ++
    Nat.repr p.upper_bound_u

/-- Errors of `ForwardFactory::deploy_market`, one per `require!`. -/
inductive FactoryError where
  | factoryPaused
  | marketCodeNotSet
  | tokenCodesNotSet
  | insufficientDeposit
  | marketAlreadyExists
deriving Repr, DecidableEq

/-- The data fixed by the synchronous part of `deploy_market` when it
launches the asynchronous deployment chain. -/
structure DeployLaunch where
  fs : FactoryState
  market_key : String
  info : MarketInfo
deriving Repr, DecidableEq

/-- The synchronous part of `ForwardFactory::deploy_market`: the guards, the
dedupe check, the counter bump and the allocation of the three account ids.
On success it returns the factory state as left behind by the synchronous
call (counter advanced, market not yet registered) together with the key and
the `MarketInfo` handed to the final `on_market_deployed` continuation. -/
def deploy_market (fs : FactoryState) (predecessor : String) (deposit : Nat)
    (block_timestamp : Nat) (p : MarketParams) (factory_id : String) :
    Except FactoryError DeployLaunch :=
  if fs.paused then .error .factoryPaused
  else if fs.market_code = [] then .error .marketCodeNotSet
  else if fs.long_token_code = [] then .error .tokenCodesNotSet
  else if ¬ (MARKET_STORAGE + 2 * TOKEN_STORAGE ≤ deposit) then .error .insufficientDeposit
  else
    let market_key := compute_market_key p
    if (alLookup market_key fs.markets).isSome then .error .marketAlreadyExists
    else
      let counter := fs.deploy_counter + 1
      .ok { fs := { fs with deploy_counter := counter },
            market_key := market_key,
            info :=
              { market_id := "market-" ++ Nat.repr counter ++ "." ++ factory_id,
                long_token := "long-" ++ Nat.repr counter ++ "." ++ factory_id,
                short_token := "short-" ++ Nat.repr counter ++ "." ++ factory_id,
                params := p,
                created_at := block_timestamp,
                creator := predecessor } }

/-- `ForwardFactory::on_market_deployed`: inserts the `MarketInfo` into the
registry, the all-markets index and the per-creator index.  It takes no
promise-result argument and performs no inspection of the outcome of the
preceding chain steps. -/
def on_market_deployed (fs : FactoryState) (market_key : String)
    (info : MarketInfo) : FactoryState :=
  { fs with
    markets := alInsert market_key info fs.markets,
    all_market_keys := keyInsert market_key fs.all_market_keys,
    markets_by_creator :=
      alInsert info.creator
        (((alLookup info.creator fs.markets_by_creator).getD []) ++ [market_key])
        fs.markets_by_creator }

/-- Result of one whole deployment chain. -/
structure ChainOutcome where
  long_created : Bool
  short_created : Bool
  market_created : Bool
  final : FactoryState
deriving Repr, DecidableEq

/-- Modelled from the runtime semantics the contracts execute under: a
promise chained with a then-continuation runs after its predecessor settles
whether the predecessor succeeded or failed, and a continuation observes
such failures only by inspecting its promise results.  The three booleans
are the outcomes of the three account-creation steps of the chain launched
by `deploy_market`.  Because `on_market_deployed` inspects no promise
result, the registration continuation runs for every launched chain,
whatever those outcomes. -/
def run_deploy_chain (fs : FactoryState) (predecessor : String) (deposit : Nat)
    (block_timestamp : Nat) (p : MarketParams) (factory_id : String)
    (step1_ok step2_ok step3_ok : Bool) : Except FactoryError ChainOutcome :=
  match deploy_market fs predecessor deposit block_timestamp p factory_id with
  | .error e => .error e
  | .ok launch =>
    .ok { long_created := step1_ok,
          short_created := step2_ok,
          market_created := step3_ok,
          final := on_market_deployed launch.fs launch.market_key launch.info }

/-! ### The asynchronous execution model of one market engine

Execution is single-threaded per contract instance, but a call that issues a
remote request finishes before its continuation runs, and other calls may be
served in between.  `World` pairs the engine state with the number of
`settle` price-request continuations that have been scheduled and have not
yet run; `Step` is one atomic execution step of the instance. -/

structure World where
  c : Contract
  inflight : Nat
deriving Repr, DecidableEq

/-- One atomic step of a market-engine instance.  `oracleEmpty` covers a
price request that returned no usable price (stale, unset, failed, or a
finalization that aborted), in which case `on_price_received` leaves the
state unchanged; `oraclePrice` is a callback that received a price and ran
`finalize_settlement`. -/
inductive Step : World → World → Prop
  | settleCall (w : World) (t : Nat) :
      settle w.c t = .ok () →
      Step w { w with inflight := w.inflight + 1 }
  | oracleEmpty (w : World) :
      0 < w.inflight →
      Step w { w with inflight := w.inflight - 1 }
  | oraclePrice (w : World) (price : Nat) (c2 : Contract) (feeRec : Option Nat) :
      0 < w.inflight →
      finalize_settlement w.c price = .ok (c2, feeRec) →
      Step w { c := c2, inflight := w.inflight - 1 }
  | createPos (w : World) (caller : String) (amount block_index : Nat)
      (c2 : Contract) (tag : String) :
      create_position w.c caller amount block_index = .ok (c2, tag) →
      Step w { w with c := c2 }
  | transferIn (w : World) (caller sender tag : String) (amount : Nat)
      (c2 : Contract) (eff : MintEffects) (unconsumed : Nat) :
      ft_on_transfer w.c caller sender amount tag = .ok (c2, (eff, unconsumed)) →
      Step w { w with c := c2 }
  | redeemCall (w : World) (long_amount short_amount : Nat)
      (c2 : Contract) (eff : RedeemEffects) :
      redeem w.c long_amount short_amount = .ok (c2, eff) →
      Step w { w with c := c2 }
  | pauseCall (w : World) (pm ps : Bool) :
      Step w { w with c := set_paused w.c pm ps }

/-- Worlds reachable from a freshly constructed market. -/
inductive Reachable : World → Prop
  | init (params : MarketParams)
      (long_token short_token oracle fee_collector owner guardian : String)
      (t : Nat) (c : Contract) :
      ForwardMarket.new params long_token short_token oracle fee_collector
        owner guardian t = .ok c →
      Reachable { c := c, inflight := 0 }
  | step (w w2 : World) : Reachable w → Step w w2 → Reachable w2

/-! ### C1, C2: the settlement factor and the payout pair -/

/-- The market of spec Example 1: `L = 30e24`, `U = 70e24`, `K = 50e24`,
with the fee schedule used throughout the repository tests. -/
def exampleParams : MarketParams :=
  { underlying := "wrap.near", quote := "usdc.near", maturity := 1700000000,
    strike_k := 50 * 10 ^ 24, lower_bound_l := 30 * 10 ^ 24,
    upper_bound_u := 70 * 10 ^ 24,
    mint_fee_bps := 30, settle_fee_bps := 50, redeem_fee_bps := 20 }

/-- A small valid market whose band width is below `SCALE`, used to
instantiate general theorems at concrete inputs. -/
def smallParams : MarketParams :=
  { underlying := "wrap.near", quote := "usdc.near", maturity := 100,
    strike_k := 5, lower_bound_l := 0, upper_bound_u := 10,
    mint_fee_bps := 0, settle_fee_bps := 0, redeem_fee_bps := 0 }

lemma settlement_factor_interior (p : MarketParams) (P : Nat)
    (h1 : p.lower_bound_l < P) (h2 : P < p.upper_bound_u)
    (hov : (P - p.lower_bound_l) * SCALE < U128_MOD) :
    calculate_settlement_factor p P =
      .ok ((P - p.lower_bound_l) * SCALE / (p.upper_bound_u - p.lower_bound_l)) := by
  have hn1 : ¬ (P ≤ p.lower_bound_l) := by omega
  have hn2 : ¬ (p.upper_bound_u ≤ P) := by omega
  simp [calculate_settlement_factor, hn1, hn2, hov]

lemma settlement_factor_interior_overflow (p : MarketParams) (P : Nat)
    (h1 : p.lower_bound_l < P) (h2 : P < p.upper_bound_u)
    (hov : U128_MOD ≤ (P - p.lower_bound_l) * SCALE) :
    calculate_settlement_factor p P = .error .arithmeticOverflow := by
  have hn1 : ¬ (P ≤ p.lower_bound_l) := by omega
  have hn2 : ¬ (p.upper_bound_u ≤ P) := by omega
  have hn3 : ¬ ((P - p.lower_bound_l) * SCALE < U128_MOD) := by omega
  simp [calculate_settlement_factor, hn1, hn2, hn3]

lemma settlement_factor_interior_le (p : MarketParams) (P : Nat)
    (hlu : p.lower_bound_l < p.upper_bound_u) (hP : P ≤ p.upper_bound_u) :
    (P - p.lower_bound_l) * SCALE / (p.upper_bound_u - p.lower_bound_l) ≤ SCALE := by
  have hd : 0 < p.upper_bound_u - p.lower_bound_l := by omega
  have hmul : (P - p.lower_bound_l) * SCALE ≤
      (p.upper_bound_u - p.lower_bound_l) * SCALE :=
    Nat.mul_le_mul (by omega) (Nat.le_refl SCALE)
  calc (P - p.lower_bound_l) * SCALE / (p.upper_bound_u - p.lower_bound_l)
      ≤ (p.upper_bound_u - p.lower_bound_l) * SCALE /
          (p.upper_bound_u - p.lower_bound_l) := Nat.div_le_div_right hmul
    _ = SCALE := Nat.mul_div_cancel_left SCALE hd

lemma settlement_factor_ok_cases (p : MarketParams) (P vP : Nat)
    (h : calculate_settlement_factor p P = .ok vP) :
    (P ≤ p.lower_bound_l ∧ vP = 0) ∨
    (p.upper_bound_u ≤ P ∧ vP = SCALE) ∨
    (p.lower_bound_l < P ∧ P < p.upper_bound_u ∧
      (P - p.lower_bound_l) * SCALE < U128_MOD ∧
      vP = (P - p.lower_bound_l) * SCALE / (p.upper_bound_u - p.lower_bound_l)) := by
  unfold calculate_settlement_factor at h
  split_ifs at h with h1 h2 h3
  · injection h with hv
    exact Or.inl ⟨h1, hv.symm⟩
  · injection h with hv
    exact Or.inr (Or.inl ⟨h2, hv.symm⟩)
  · injection h with hv
    exact Or.inr (Or.inr ⟨by omega, by omega, h3, hv.symm⟩)

lemma settlement_factor_mono (p : MarketParams) (P Q vP vQ : Nat)
    (hlu : p.lower_bound_l < p.upper_bound_u) (hPQ : P ≤ Q)
    (hP : calculate_settlement_factor p P = .ok vP)
    (hQ : calculate_settlement_factor p Q = .ok vQ) : vP ≤ vQ := by
  rcases settlement_factor_ok_cases p P vP hP with
      ⟨h1, rfl⟩ | ⟨h1, rfl⟩ | ⟨h1, h2, h3, rfl⟩ <;>
    rcases settlement_factor_ok_cases p Q vQ hQ with
      ⟨g1, rfl⟩ | ⟨g1, rfl⟩ | ⟨g1, g2, g3, rfl⟩
  · exact Nat.le_refl _
  · exact Nat.zero_le _
  · exact Nat.zero_le _
  · exfalso
    omega
  · exact Nat.le_refl _
  · exfalso
    omega
  · exfalso
    omega
  · exact settlement_factor_interior_le p P hlu (by omega)
  · exact Nat.div_le_div_right (Nat.mul_le_mul (by omega) (Nat.le_refl SCALE))

/-- C1 (amended): at or below `L` the settlement factor is `0` and at or
above `U` it is `SCALE`.  On the interior `L < P < U` the source computes
`(P - L) * SCALE` in checked `u128` arithmetic: when that product is below
`2^128` the factor is `floor((P - L) * SCALE / (U - L))`, which is below
`SCALE`, and the factor is nondecreasing across any two non-aborting
evaluations; under the additional hypothesis `U - L ≤ SCALE` it is strictly
positive and strictly increasing on non-aborting interior prices (this
fails otherwise, see the counterexample).  When `(P - L) * SCALE ≥ 2^128`
the call aborts; in particular at spec Example 1 (`L = 30e24`, `U = 70e24`,
`P = 50e24`) the product is `2e49 ≥ 2^128`, so the factor computation
aborts instead of producing `0.5e24`. -/
theorem C1_settlement_factor_behavior (p : MarketParams) (P Q : Nat)
    (hlu : p.lower_bound_l < p.upper_bound_u) :
    (P ≤ p.lower_bound_l → calculate_settlement_factor p P = .ok 0) ∧
    (p.upper_bound_u ≤ P → calculate_settlement_factor p P = .ok SCALE) ∧
    (p.lower_bound_l < P → P < p.upper_bound_u →
      (P - p.lower_bound_l) * SCALE < U128_MOD →
      calculate_settlement_factor p P =
        .ok ((P - p.lower_bound_l) * SCALE / (p.upper_bound_u - p.lower_bound_l)) ∧
      (P - p.lower_bound_l) * SCALE / (p.upper_bound_u - p.lower_bound_l) < SCALE) ∧
    (p.lower_bound_l < P → P < p.upper_bound_u →
      U128_MOD ≤ (P - p.lower_bound_l) * SCALE →
      calculate_settlement_factor p P = .error .arithmeticOverflow) ∧
    (∀ vP vQ, P ≤ Q → calculate_settlement_factor p P = .ok vP →
      calculate_settlement_factor p Q = .ok vQ → vP ≤ vQ) ∧
    (p.upper_bound_u - p.lower_bound_l ≤ SCALE →
      p.lower_bound_l < P → P < p.upper_bound_u →
      (P - p.lower_bound_l) * SCALE < U128_MOD →
      calculate_settlement_factor p P =
        .ok ((P - p.lower_bound_l) * SCALE / (p.upper_bound_u - p.lower_bound_l)) ∧
      0 < (P - p.lower_bound_l) * SCALE / (p.upper_bound_u - p.lower_bound_l)) ∧
    (p.upper_bound_u - p.lower_bound_l ≤ SCALE →
      p.lower_bound_l < P → P < Q → Q < p.upper_bound_u →
      (Q - p.lower_bound_l) * SCALE < U128_MOD →
      calculate_settlement_factor p P =
        .ok ((P - p.lower_bound_l) * SCALE / (p.upper_bound_u - p.lower_bound_l)) ∧
      calculate_settlement_factor p Q =
        .ok ((Q - p.lower_bound_l) * SCALE / (p.upper_bound_u - p.lower_bound_l)) ∧
      (P - p.lower_bound_l) * SCALE / (p.upper_bound_u - p.lower_bound_l) <
        (Q - p.lower_bound_l) * SCALE / (p.upper_bound_u - p.lower_bound_l)) ∧
    calculate_settlement_factor exampleParams (50 * 10 ^ 24) =
      .error .arithmeticOverflow := by
  have hS : 0 < SCALE := by norm_num [SCALE]
  have hd : 0 < p.upper_bound_u - p.lower_bound_l := by omega
  have hlt : ∀ R, p.lower_bound_l < R → R < p.upper_bound_u →
      (R - p.lower_bound_l) * SCALE / (p.upper_bound_u - p.lower_bound_l) < SCALE := by
    intro R hR1 hR2
    rw [Nat.div_lt_iff_lt_mul hd]
    calc (R - p.lower_bound_l) * SCALE
        < (p.upper_bound_u - p.lower_bound_l) * SCALE :=
          Nat.mul_lt_mul_of_lt_of_le (by omega) (Nat.le_refl SCALE) hS
      _ = SCALE * (p.upper_bound_u - p.lower_bound_l) := Nat.mul_comm _ _
  have hstrict : p.lower_bound_l < P → P < Q → Q < p.upper_bound_u →
      p.upper_bound_u - p.lower_bound_l ≤ SCALE →
      (P - p.lower_bound_l) * SCALE / (p.upper_bound_u - p.lower_bound_l) <
        (Q - p.lower_bound_l) * SCALE / (p.upper_bound_u - p.lower_bound_l) := by
    intro h1 h2 h3 hband
    have hstep : (P - p.lower_bound_l) * SCALE +
        (p.upper_bound_u - p.lower_bound_l) ≤ (Q - p.lower_bound_l) * SCALE := by
      have hmul : (P - p.lower_bound_l + 1) * SCALE ≤
          (Q - p.lower_bound_l) * SCALE :=
        Nat.mul_le_mul (by omega) (Nat.le_refl SCALE)
      rw [Nat.succ_mul] at hmul
      omega
    calc (P - p.lower_bound_l) * SCALE / (p.upper_bound_u - p.lower_bound_l)
        < (P - p.lower_bound_l) * SCALE / (p.upper_bound_u - p.lower_bound_l) + 1 :=
          Nat.lt_succ_self _
      _ = ((P - p.lower_bound_l) * SCALE + (p.upper_bound_u - p.lower_bound_l)) /
            (p.upper_bound_u - p.lower_bound_l) := (Nat.add_div_right _ hd).symm
      _ ≤ (Q - p.lower_bound_l) * SCALE / (p.upper_bound_u - p.lower_bound_l) :=
          Nat.div_le_div_right hstep
  refine ⟨?_, ?_, ?_, ?_, ?_, ?_, ?_, by rfl⟩
  · intro h
    simp [calculate_settlement_factor, h]
  · intro h
    have hn1 : ¬ (P ≤ p.lower_bound_l) := by omega
    simp [calculate_settlement_factor, hn1, h]
  · intro h1 h2 hov
    exact ⟨settlement_factor_interior p P h1 h2 hov, hlt P h1 h2⟩
  · intro h1 h2 hov
    exact settlement_factor_interior_overflow p P h1 h2 hov
  · intro vP vQ hPQ hP hQ
    exact settlement_factor_mono p P Q vP vQ hlu hPQ hP hQ
  · intro hband h1 h2 hov
    refine ⟨settlement_factor_interior p P h1 h2 hov, ?_⟩
    have hge : SCALE ≤ (P - p.lower_bound_l) * SCALE :=
      Nat.le_mul_of_pos_left SCALE (by omega)
    exact Nat.div_pos (by omega) hd
  · intro hband h1 h2 h3 hovQ
    have hovP : (P - p.lower_bound_l) * SCALE < U128_MOD := by
      have : (P - p.lower_bound_l) * SCALE ≤ (Q - p.lower_bound_l) * SCALE :=
        Nat.mul_le_mul (by omega) (Nat.le_refl SCALE)
      omega
    exact ⟨settlement_factor_interior p P h1 (by omega) hovP,
           settlement_factor_interior p Q (by omega) h3 hovQ,
           hstrict h1 h2 h3 hband⟩

/-- C1 witness: at the small market the interior factor evaluates without
aborting, is positive and strictly increases from price 3 to price 7. -/
theorem C1_settlement_factor_behavior_witness :
    (calculate_settlement_factor smallParams 3 = .ok (3 * SCALE / 10) ∧
      0 < 3 * SCALE / 10) ∧
    3 * SCALE / 10 < 7 * SCALE / 10 := by
  have h := C1_settlement_factor_behavior smallParams 3 7 (by decide)
  exact ⟨h.2.2.2.2.2.1 (by decide) (by decide) (by decide) (by decide),
         (h.2.2.2.2.2.2.1 (by decide) (by decide) (by decide) (by decide)
           (by decide)).2.2⟩

/-- C1 counterexample: at the market of spec Example 1 itself the claim
fails twice over.  The price `L + 1` lies strictly inside the band yet its
settlement factor is `0` (the band width `40e24` exceeds `SCALE`), refuting
`0 < f(P)` and strict monotonicity; and at the claim's own named input
`P = 50e24` the checked interior multiplication `(P - L) * SCALE = 2e49`
reaches `2^128`, so the computation aborts instead of returning `0.5e24`. -/
theorem C1_counterexample :
    exampleParams.lower_bound_l < 30 * 10 ^ 24 + 1 ∧
    30 * 10 ^ 24 + 1 < exampleParams.upper_bound_u ∧
    calculate_settlement_factor exampleParams (30 * 10 ^ 24 + 1) = .ok 0 ∧
    calculate_settlement_factor exampleParams (50 * 10 ^ 24) =
      .error .arithmeticOverflow := by
  refine ⟨by decide, by decide, by rfl, by rfl⟩

lemma payout_split_bounds (x y amount : Nat) (hxy : x + y = amount * SCALE) :
    x / SCALE + y / SCALE ≤ amount ∧ amount ≤ x / SCALE + y / SCALE + 1 ∧
      (SCALE ∣ x → x / SCALE + y / SCALE = amount) := by
  have hS : SCALE = 1000000000000000000000000 := by norm_num [SCALE]
  rw [hS] at hxy ⊢
  omega

/-- C2 (amended): for a settlement factor `f ≤ SCALE`, redeeming an equal
minted long/short pair of size `amount` pays out at most `amount` and at
least `amount - 1`; exact conservation holds precisely up to the floor
rounding, in particular whenever `SCALE` divides `amount * f` (so for
`f = 0` and `f = SCALE` it is exact), but not in general. -/
theorem C2_payout_pair_conservation (amount f : Nat) (hf : f ≤ SCALE) :
    calculate_payout amount f true + calculate_payout amount f false ≤ amount ∧
    amount ≤ calculate_payout amount f true + calculate_payout amount f false + 1 ∧
    (SCALE ∣ amount * f →
      calculate_payout amount f true + calculate_payout amount f false = amount) := by
  have hxy : amount * f + amount * (SCALE - f) = amount * SCALE := by
    rw [← Nat.mul_add, Nat.add_sub_cancel' hf]
  have h := payout_split_bounds (amount * f) (amount * (SCALE - f)) amount hxy
  simpa [calculate_payout] using h

/-- C2 witness: at `amount = 10`, `f = SCALE / 2` the pair redeems exactly. -/
theorem C2_payout_pair_conservation_witness :
    calculate_payout 10 (5 * 10 ^ 23) true + calculate_payout 10 (5 * 10 ^ 23) false ≤ 10 ∧
    10 ≤ calculate_payout 10 (5 * 10 ^ 23) true + calculate_payout 10 (5 * 10 ^ 23) false + 1 ∧
    (SCALE ∣ 10 * (5 * 10 ^ 23) →
      calculate_payout 10 (5 * 10 ^ 23) true + calculate_payout 10 (5 * 10 ^ 23) false = 10) :=
  C2_payout_pair_conservation 10 (5 * 10 ^ 23) (by decide)

/-- C2 counterexample: `amount = 1` with factor `f = 1 ∈ [0, SCALE]` pays
out `0 + 0 ≠ 1`: the claimed exact conservation fails. -/
theorem C2_counterexample :
    (1 : Nat) ≤ SCALE ∧
    calculate_payout 1 1 true + calculate_payout 1 1 false ≠ 1 := by
  decide

/-! ### C10: construction validates bounds, strike and maturity only -/

/-- The state every freshly constructed market starts in. -/
def freshState : MarketState :=
  { is_settled := false, settlement_price := none, settlement_factor := none,
    total_collateral := 0, long_token_supply := 0, short_token_supply := 0,
    paused_mint := false, paused_settle := false }

/-- C10 (confirmed): `ForwardMarket::new` checks only `U > L`, `L ≤ K ≤ U`
and `maturity > now`; the three fee-bps fields are accepted without any
range check, so construction succeeds for every fee values, including those
above 10000. -/
theorem C10_new_validates_only_bounds_strike_maturity
    (params : MarketParams)
    (long_token short_token oracle fee_collector owner guardian : String)
    (t : Nat)
    (hb : params.lower_bound_l < params.upper_bound_u)
    (hk1 : params.lower_bound_l ≤ params.strike_k)
    (hk2 : params.strike_k ≤ params.upper_bound_u)
    (hm : t < params.maturity) :
    ForwardMarket.new params long_token short_token oracle fee_collector
        owner guardian t =
      .ok { params := params, state := freshState, long_token := long_token,
            short_token := short_token, oracle := oracle,
            fee_collector := fee_collector, owner := owner,
            guardian := guardian, user_deposits := [], pending_actions := [] } := by
  simp [ForwardMarket.new, hb, hk1, hk2, hm, freshState]

/-- A parameter set whose three fee-bps fields all exceed 10000. -/
def C10params : MarketParams :=
  { underlying := "wrap.near", quote := "usdc.near", maturity := 100,
    strike_k := 5, lower_bound_l := 0, upper_bound_u := 10,
    mint_fee_bps := 20000, settle_fee_bps := 15000, redeem_fee_bps := 12000 }

/-- C10 witness: construction succeeds with all fee bps above 10000. -/
theorem C10_new_validates_only_bounds_strike_maturity_witness :
    10000 < C10params.mint_fee_bps ∧ 10000 < C10params.settle_fee_bps ∧
    10000 < C10params.redeem_fee_bps ∧
    ForwardMarket.new C10params "long.near" "short.near" "oracle.near"
        "fees.near" "owner.near" "guard.near" 0 =
      .ok { params := C10params, state := freshState, long_token := "long.near",
            short_token := "short.near", oracle := "oracle.near",
            fee_collector := "fees.near", owner := "owner.near",
            guardian := "guard.near", user_deposits := [], pending_actions := [] } :=
  ⟨by decide, by decide, by decide,
   C10_new_validates_only_bounds_strike_maturity C10params "long.near"
     "short.near" "oracle.near" "fees.near" "owner.near" "guard.near" 0
     (by decide) (by decide) (by decide) (by decide)⟩

/-! ### C8: the dedupe key ignores the fee parameters -/

/-- C8 (confirmed): the dedupe key is built from underlying, quote,
maturity, strike and the two bounds only, so two `deploy_market` requests
agreeing on those six fields get the same key, and once a market occupies
that key the second request is rejected as a duplicate whatever its fees. -/
theorem C8_dedupe_key_ignores_fees (p q : MarketParams) (fs : FactoryState)
    (predecessor factory_id : String) (deposit t : Nat)
    (hu : p.underlying = q.underlying) (hqt : p.quote = q.quote)
    (hm : p.maturity = q.maturity) (hk : p.strike_k = q.strike_k)
    (hl : p.lower_bound_l = q.lower_bound_l)
    (hub : p.upper_bound_u = q.upper_bound_u)
    (hpaused : fs.paused = false)
    (hmc : fs.market_code ≠ []) (htc : fs.long_token_code ≠ [])
    (hdep : MARKET_STORAGE + 2 * TOKEN_STORAGE ≤ deposit)
    (hocc : (alLookup (compute_market_key p) fs.markets).isSome) :
    compute_market_key p = compute_market_key q ∧
    deploy_market fs predecessor deposit t q factory_id =
      .error .marketAlreadyExists := by
  have hkey : compute_market_key p = compute_market_key q := by
    unfold compute_market_key
    rw [hu, hqt, hm, hk, hl, hub]
  rw [hkey] at hocc
  refine ⟨hkey, ?_⟩
  unfold deploy_market
  simp [hpaused, hmc, htc, hdep, hocc]

/-- Like `C10params` but with a different fee schedule. -/
def C8paramsB : MarketParams :=
  { C10params with mint_fee_bps := 1, settle_fee_bps := 2, redeem_fee_bps := 3 }

/-- A registry entry standing for the already deployed market. -/
def C8info : MarketInfo :=
  { market_id := "market-1.factory.near", long_token := "long-1.factory.near",
    short_token := "short-1.factory.near", params := C10params,
    created_at := 1, creator := "alice.near" }

/-- A factory whose registry already holds the market of `C10params`. -/
def C8factory : FactoryState :=
  { owner := "owner.near", oracle := "oracle.near", fee_collector := "fees.near",
    guardian := "guard.near",
    markets := [(compute_market_key C10params, C8info)],
    markets_by_creator := [("alice.near", [compute_market_key C10params])],
    all_market_keys := [compute_market_key C10params],
    market_code := [0], long_token_code := [0], short_token_code := [0],
    paused := false, deploy_counter := 1 }

/-- C8 witness: a request differing from the registered market only in fee
bps maps to the occupied key and is rejected. -/
theorem C8_dedupe_key_ignores_fees_witness :
    compute_market_key C10params = compute_market_key C8paramsB ∧
    deploy_market C8factory "bob.near" (MARKET_STORAGE + 2 * TOKEN_STORAGE) 2
        C8paramsB "factory.near" = .error .marketAlreadyExists :=
  C8_dedupe_key_ignores_fees C10params C8paramsB C8factory "bob.near"
    "factory.near" (MARKET_STORAGE + 2 * TOKEN_STORAGE) 2
    rfl rfl rfl rfl rfl rfl rfl (by decide) (by decide) (by decide) (by decide)

/-! ### C9: registration runs even when the deployment chain failed -/

/-- A configured, unpaused factory with an empty registry. -/
def C9factory : FactoryState :=
  { owner := "owner.near", oracle := "oracle.near", fee_collector := "fees.near",
    guardian := "guard.near", markets := [], markets_by_creator := [],
    all_market_keys := [], market_code := [0], long_token_code := [0],
    short_token_code := [0], paused := false, deploy_counter := 0 }

/-- C9 evaluation at the failing input: a `deploy_market` chain all three of
whose account-creation steps fail still runs `on_market_deployed`, which
inspects no promise result and registers the `MarketInfo` anyway. -/
theorem C9_registration_runs_after_failed_steps :
    (run_deploy_chain C9factory "alice.near" (MARKET_STORAGE + 2 * TOKEN_STORAGE)
        1 exampleParams "factory.near" false false false).map
      (fun out => (out.long_created, out.short_created, out.market_created,
        (alLookup (compute_market_key exampleParams) out.final.markets).isSome)) =
    .ok (false, false, false, true) := by
  rfl

/-! ### C7: the correlation tag is the block index, not a per-call value -/

/-- An open market used to exercise `create_position`. -/
def C7market : Contract :=
  { params := exampleParams, state := freshState, long_token := "long.near",
    short_token := "short.near", oracle := "oracle.near",
    fee_collector := "fees.near", owner := "owner.near",
    guardian := "guard.near", user_deposits := [], pending_actions := [] }

/-- The contract after the first same-block `create_position` call. -/
def C7afterAlice : Contract :=
  { C7market with pending_actions :=
      [("mint_5", { account := "alice.near", amount := 100,
                    action_type := ActionType.Mint })] }

/-- The contract after the second same-block `create_position` call. -/
def C7afterBob : Contract :=
  { C7market with pending_actions :=
      [("mint_5", { account := "bob.near", amount := 200,
                    action_type := ActionType.Mint })] }

/-- C7 evaluation at the failing input: two `create_position` calls executed
in the same block (block index 5) both derive the tag `"mint_5"`, and the
second registration replaces the first caller's pending action, which is
gone afterwards — the tags are not fresh or unique per call. -/
theorem C7_same_block_tag_collision :
    create_position C7market "alice.near" 100 5 = .ok (C7afterAlice, "mint_5") ∧
    create_position C7afterAlice "bob.near" 200 5 = .ok (C7afterBob, "mint_5") ∧
    alLookup "mint_5" C7afterAlice.pending_actions =
      some { account := "alice.near", amount := 100,
             action_type := ActionType.Mint } ∧
    alLookup "mint_5" C7afterBob.pending_actions =
      some { account := "bob.near", amount := 200,
             action_type := ActionType.Mint } ∧
    C7afterBob.pending_actions.length = 1 := by
  refine ⟨by rfl, by rfl, by decide, by decide, by decide⟩

/-! ### C4, C5: the redeem flow and its collateral deduction -/

lemma redeem_fee_le_total (p : MarketParams) (long_amount short_amount f : Nat)
    (hbps : p.redeem_fee_bps ≤ 10000) :
    redeem_fee p long_amount short_amount f ≤
      redeem_total_payout long_amount short_amount f := by
  unfold redeem_fee
  calc redeem_total_payout long_amount short_amount f * p.redeem_fee_bps / 10000
      ≤ redeem_total_payout long_amount short_amount f * 10000 / 10000 :=
        Nat.div_le_div_right (Nat.mul_le_mul (Nat.le_refl _) hbps)
    _ = redeem_total_payout long_amount short_amount f :=
        Nat.mul_div_cancel _ (by norm_num)

lemma redeem_characterization (c : Contract) (long_amount short_amount f : Nat)
    (hset : c.state.is_settled = true)
    (hf : c.state.settlement_factor = some f)
    (hfs : f ≤ SCALE)
    (hpos : 0 < long_amount ∨ 0 < short_amount)
    (h1 : long_amount * f < U128_MOD)
    (h2 : short_amount * (SCALE - f) < U128_MOD)
    (h3 : redeem_total_payout long_amount short_amount f < U128_MOD)
    (h4 : redeem_total_payout long_amount short_amount f * c.params.redeem_fee_bps < U128_MOD)
    (hbps : c.params.redeem_fee_bps ≤ 10000) :
    (c.state.total_collateral < redeem_net c.params long_amount short_amount f →
      redeem c long_amount short_amount = .error .insufficientCollateral) ∧
    (redeem_net c.params long_amount short_amount f ≤ c.state.total_collateral →
      c.state.total_collateral < redeem_total_payout long_amount short_amount f →
      redeem c long_amount short_amount = .error .arithmeticOverflow) ∧
    (redeem_total_payout long_amount short_amount f ≤ c.state.total_collateral →
      redeem c long_amount short_amount = .ok
        ({ c with
           state := { c.state with
                      total_collateral := c.state.total_collateral -
                        redeem_total_payout long_amount short_amount f } },
         { burn_long := if 0 < long_amount then some long_amount else none,
           burn_short := if 0 < short_amount then some short_amount else none,
           fee_record := if 0 < redeem_fee c.params long_amount short_amount f then
               some (redeem_fee c.params long_amount short_amount f) else none,
           transfer_net := redeem_net c.params long_amount short_amount f })) := by
  have hfee := redeem_fee_le_total c.params long_amount short_amount f hbps
  have hbig : f ≤ SCALE ∧ long_amount * f < U128_MOD ∧
      short_amount * (SCALE - f) < U128_MOD ∧
      redeem_total_payout long_amount short_amount f < U128_MOD ∧
      redeem_total_payout long_amount short_amount f * c.params.redeem_fee_bps < U128_MOD ∧
      redeem_fee c.params long_amount short_amount f ≤
        redeem_total_payout long_amount short_amount f :=
    ⟨hfs, h1, h2, h3, h4, hfee⟩
  refine ⟨?_, ?_, ?_⟩
  · intro hc
    have hc2 : ¬ (redeem_net c.params long_amount short_amount f ≤
        c.state.total_collateral) := by omega
    simp [redeem, hset, hpos, hf, hbig, hc2]
  · intro hc hc2
    have hc3 : ¬ (redeem_total_payout long_amount short_amount f ≤
        c.state.total_collateral) := by omega
    simp [redeem, hset, hpos, hf, hbig, hc, hc3]
  · intro hc
    have hnet : redeem_net c.params long_amount short_amount f ≤
        c.state.total_collateral := by
      have hsub := Nat.sub_le (redeem_total_payout long_amount short_amount f)
        (redeem_fee c.params long_amount short_amount f)
      unfold redeem_net
      omega
    simp [redeem, hset, hpos, hf, hbig, hc, hnet]

/-- C4 (amended): `redeem` requires a settled market and a positive amount;
writing `total_payout = long_payout + short_payout`,
`fee = floor(total_payout * redeem_fee_bps / 10000)` and
`net_payout = total_payout - fee`: it fails with insufficient-collateral
when `net_payout > total_collateral`; otherwise, provided additionally
`total_payout ≤ total_collateral`, it deducts `total_payout` from the
collateral held in the returned state before the burn, fee-record and
payout-transfer calls it issues, transferring `net_payout` to the caller;
in the remaining case `net_payout ≤ total_collateral < total_payout` the
checked deduction aborts the call instead (see counterexample). -/
theorem C4_redeem_behavior (c : Contract) (long_amount short_amount f : Nat)
    (hset : c.state.is_settled = true)
    (hf : c.state.settlement_factor = some f)
    (hfs : f ≤ SCALE)
    (hpos : 0 < long_amount ∨ 0 < short_amount)
    (h1 : long_amount * f < U128_MOD)
    (h2 : short_amount * (SCALE - f) < U128_MOD)
    (h3 : redeem_total_payout long_amount short_amount f < U128_MOD)
    (h4 : redeem_total_payout long_amount short_amount f * c.params.redeem_fee_bps < U128_MOD)
    (hbps : c.params.redeem_fee_bps ≤ 10000) :
    (c.state.total_collateral < redeem_net c.params long_amount short_amount f →
      redeem c long_amount short_amount = .error .insufficientCollateral) ∧
    (redeem_net c.params long_amount short_amount f ≤ c.state.total_collateral →
      c.state.total_collateral < redeem_total_payout long_amount short_amount f →
      redeem c long_amount short_amount = .error .arithmeticOverflow) ∧
    (redeem_total_payout long_amount short_amount f ≤ c.state.total_collateral →
      redeem c long_amount short_amount = .ok
        ({ c with
           state := { c.state with
                      total_collateral := c.state.total_collateral -
                        redeem_total_payout long_amount short_amount f } },
         { burn_long := if 0 < long_amount then some long_amount else none,
           burn_short := if 0 < short_amount then some short_amount else none,
           fee_record := if 0 < redeem_fee c.params long_amount short_amount f then
               some (redeem_fee c.params long_amount short_amount f) else none,
           transfer_net := redeem_net c.params long_amount short_amount f })) :=
  redeem_characterization c long_amount short_amount f hset hf hfs hpos h1 h2 h3 h4 hbps

/-- A settled market holding 1000 units of collateral, redeem fee 10%. -/
def C4market : Contract :=
  { params := { exampleParams with redeem_fee_bps := 1000 },
    state := { freshState with
               is_settled := true,
               settlement_price := some (70 * 10 ^ 24),
               settlement_factor := some SCALE,
               total_collateral := 1000 },
    long_token := "long.near", short_token := "short.near",
    oracle := "oracle.near", fee_collector := "fees.near",
    owner := "owner.near", guardian := "guard.near",
    user_deposits := [], pending_actions := [] }

/-- C4 witness: a fully backed redemption of 10 long tokens at factor
`SCALE` deducts the full payout 10 and transfers the net 9. -/
theorem C4_redeem_behavior_witness :
    redeem C4market 10 0 = .ok
      ({ C4market with
         state := { C4market.state with total_collateral := 990 } },
       { burn_long := some 10, burn_short := none,
         fee_record := some 1, transfer_net := 9 }) := by
  have h := C4_redeem_behavior C4market 10 0 SCALE rfl rfl (by decide)
    (Or.inl (by decide)) (by decide) (by decide) (by decide) (by decide) (by decide)
  exact h.2.2 (by decide)

/-- C4 counterexample: at `C4market` with 100 units of collateral, net
payout 95 passes the guard yet total payout 105 exceeds the collateral, so
instead of deducting and transferring, the call aborts on the checked
subtraction. -/
def C4smallMarket : Contract :=
  { C4market with
    state := { C4market.state with total_collateral := 100 } }

/-- C4 counterexample: the guard passes (95 ≤ 100) but the claimed
deduct-and-transfer does not happen; the call aborts. -/
theorem C4_counterexample :
    redeem_net C4smallMarket.params 105 0 SCALE ≤
      C4smallMarket.state.total_collateral ∧
    redeem C4smallMarket 105 0 = .error .arithmeticOverflow :=
  ⟨by decide, by rfl⟩

/-- C5 (amended): the guard `net_payout ≤ total_collateral` by itself does
not rule out underflow of the subsequent `total_collateral -= total_payout`
(see counterexample); it does whenever the redeem fee is zero, since then
`net_payout = total_payout`, and the redemption then succeeds. -/
theorem C5_guard_prevents_underflow_only_without_fee
    (c : Contract) (long_amount short_amount f : Nat)
    (hset : c.state.is_settled = true)
    (hf : c.state.settlement_factor = some f)
    (hfs : f ≤ SCALE)
    (hpos : 0 < long_amount ∨ 0 < short_amount)
    (h1 : long_amount * f < U128_MOD)
    (h2 : short_amount * (SCALE - f) < U128_MOD)
    (h3 : redeem_total_payout long_amount short_amount f < U128_MOD)
    (hzero : c.params.redeem_fee_bps = 0)
    (hguard : redeem_net c.params long_amount short_amount f ≤ c.state.total_collateral) :
    redeem_total_payout long_amount short_amount f ≤ c.state.total_collateral ∧
    redeem c long_amount short_amount = .ok
      ({ c with
         state := { c.state with
                    total_collateral := c.state.total_collateral -
                      redeem_total_payout long_amount short_amount f } },
       { burn_long := if 0 < long_amount then some long_amount else none,
         burn_short := if 0 < short_amount then some short_amount else none,
         fee_record := none,
         transfer_net := redeem_total_payout long_amount short_amount f }) := by
  have hfee0 : redeem_fee c.params long_amount short_amount f = 0 := by
    unfold redeem_fee
    rw [hzero, Nat.mul_zero]
  have hneteq : redeem_net c.params long_amount short_amount f =
      redeem_total_payout long_amount short_amount f := by
    unfold redeem_net
    omega
  have h4 : redeem_total_payout long_amount short_amount f *
      c.params.redeem_fee_bps < U128_MOD := by
    rw [hzero, Nat.mul_zero]
    norm_num [U128_MOD]
  have htot : redeem_total_payout long_amount short_amount f ≤
      c.state.total_collateral := by rw [← hneteq]; exact hguard
  have h := redeem_characterization c long_amount short_amount f hset hf hfs
    hpos h1 h2 h3 h4 (by omega)
  refine ⟨htot, ?_⟩
  have hok := h.2.2 htot
  rw [hok, hfee0, hneteq]
  simp

/-- A settled zero-fee market used to instantiate C5. -/
def C5okMarket : Contract :=
  { params := smallParams,
    state := { freshState with
               is_settled := true,
               settlement_price := some 10,
               settlement_factor := some SCALE,
               total_collateral := 50 },
    long_token := "long.near", short_token := "short.near",
    oracle := "oracle.near", fee_collector := "fees.near",
    owner := "owner.near", guardian := "guard.near",
    user_deposits := [], pending_actions := [] }

/-- C5 witness: with a zero fee, a guarded redemption of 30 long tokens
never underflows and succeeds. -/
theorem C5_guard_prevents_underflow_only_without_fee_witness :
    redeem_total_payout 30 0 SCALE ≤ C5okMarket.state.total_collateral ∧
    redeem C5okMarket 30 0 = .ok
      ({ C5okMarket with
         state := { C5okMarket.state with total_collateral := 20 } },
       { burn_long := some 30, burn_short := none,
         fee_record := none, transfer_net := 30 }) := by
  have h := C5_guard_prevents_underflow_only_without_fee C5okMarket 30 0 SCALE
    rfl rfl (by decide) (Or.inl (by decide)) (by decide) (by decide) (by decide)
    rfl (by decide)
  exact h

/-- A settled market with redeem fee 20% and 1000 units of collateral. -/
def C5market : Contract :=
  { params := { exampleParams with redeem_fee_bps := 2000 },
    state := { freshState with
               is_settled := true,
               settlement_price := some (70 * 10 ^ 24),
               settlement_factor := some SCALE,
               total_collateral := 1000 },
    long_token := "long.near", short_token := "short.near",
    oracle := "oracle.near", fee_collector := "fees.near",
    owner := "owner.near", guardian := "guard.near",
    user_deposits := [], pending_actions := [] }

/-- C5 counterexample: total payout 1100, fee 220, net 880: the guard
`880 ≤ 1000` passes, yet the deduction `1000 - 1100` underflows and the call
aborts — the claimed no-underflow property fails. -/
theorem C5_counterexample :
    redeem_net C5market.params 1100 0 SCALE ≤ C5market.state.total_collateral ∧
    C5market.state.total_collateral < redeem_total_payout 1100 0 SCALE ∧
    redeem C5market 1100 0 = .error .arithmeticOverflow :=
  ⟨by decide, by decide, by rfl⟩

/-! ### C6: reconciliation of incoming quote-asset transfers -/

/-- C6 (confirmed): for a quote-asset transfer carrying correlation tag
`tag`, if a pending Mint action exists for the tag and its account and
amount exactly equal the sender and the transferred amount, then with
`fee = floor(amount * mint_fee_bps / 10000)` and `net = amount - fee` the
collateral and both claim supplies each grow by `net`, mints of `net` are
requested for the depositor on both ledgers, the pending action is removed
and zero is reported unconsumed; when no pending action exists for the tag,
or any of account, amount or action kind mismatches, the whole amount is
reported unconsumed and the contract is unchanged.  The overflow-side
hypotheses delimit the checked `u128` additions. -/
theorem C6_ft_on_transfer_reconciliation (c : Contract)
    (caller sender tag : String) (amount : Nat)
    (hq : caller = c.params.quote)
    (hbps : c.params.mint_fee_bps ≤ 10000)
    (hov1 : amount * c.params.mint_fee_bps < U128_MOD)
    (hov2 : c.state.total_collateral + amount < U128_MOD)
    (hov3 : c.state.long_token_supply + amount < U128_MOD)
    (hov4 : c.state.short_token_supply + amount < U128_MOD)
    (hov5 : (alLookup sender c.user_deposits).getD 0 + amount < U128_MOD) :
    (∀ a : PendingAction, alLookup tag c.pending_actions = some a →
      a.action_type = ActionType.Mint → a.account = sender → a.amount = amount →
      ft_on_transfer c caller sender amount tag = .ok
        ({ c with
           state := { c.state with
                      total_collateral := c.state.total_collateral +
                        (amount - amount * c.params.mint_fee_bps / 10000),
                      long_token_supply := c.state.long_token_supply +
                        (amount - amount * c.params.mint_fee_bps / 10000),
                      short_token_supply := c.state.short_token_supply +
                        (amount - amount * c.params.mint_fee_bps / 10000) },
           user_deposits :=
             alInsert sender
               ((alLookup sender c.user_deposits).getD 0 +
                 (amount - amount * c.params.mint_fee_bps / 10000))
               c.user_deposits,
           pending_actions := alRemove tag c.pending_actions },
         ({ mint_long := some (sender, amount - amount * c.params.mint_fee_bps / 10000),
            mint_short := some (sender, amount - amount * c.params.mint_fee_bps / 10000),
            fee_record := if 0 < amount * c.params.mint_fee_bps / 10000 then
                some (amount * c.params.mint_fee_bps / 10000) else none },
          0))) ∧
    (alLookup tag c.pending_actions = none →
      ft_on_transfer c caller sender amount tag = .ok (c, (noMintEffects, amount))) ∧
    (∀ a : PendingAction, alLookup tag c.pending_actions = some a →
      a.account ≠ sender ∨ a.amount ≠ amount ∨ a.action_type ≠ ActionType.Mint →
      ft_on_transfer c caller sender amount tag = .ok (c, (noMintEffects, amount))) := by
  have hfee_le : amount * c.params.mint_fee_bps / 10000 ≤ amount := by
    calc amount * c.params.mint_fee_bps / 10000
        ≤ amount * 10000 / 10000 :=
          Nat.div_le_div_right (Nat.mul_le_mul (Nat.le_refl _) hbps)
      _ = amount := Nat.mul_div_cancel _ (by norm_num)
  have hnet_le : amount - amount * c.params.mint_fee_bps / 10000 ≤ amount :=
    Nat.sub_le _ _
  refine ⟨?_, ?_, ?_⟩
  · intro a hlook htype hacc hamt
    have hchecks : c.state.total_collateral +
        (amount - amount * c.params.mint_fee_bps / 10000) < U128_MOD ∧
        c.state.long_token_supply +
          (amount - amount * c.params.mint_fee_bps / 10000) < U128_MOD ∧
        c.state.short_token_supply +
          (amount - amount * c.params.mint_fee_bps / 10000) < U128_MOD ∧
        (alLookup sender c.user_deposits).getD 0 +
          (amount - amount * c.params.mint_fee_bps / 10000) < U128_MOD := by
      omega
    simp [ft_on_transfer, hq, hlook, htype, hacc, hamt, hov1, hfee_le, hchecks]
  · intro hlook
    simp [ft_on_transfer, hq, hlook]
  · intro a hlook hmis
    rcases hmis with h | h | h
    · simp [ft_on_transfer, hq, hlook, h]
    · simp [ft_on_transfer, hq, hlook, h]
    · have htype : a.action_type = ActionType.Redeem := by
        cases ha : a.action_type
        · exact absurd ha h
        · rfl
      by_cases hmatch : a.account = sender ∧ a.amount = amount
      · simp [ft_on_transfer, hq, hlook, hmatch, htype]
      · simp [ft_on_transfer, hq, hlook, hmatch]

/-- The pending Mint action of spec Example 2. -/
def C6action : PendingAction :=
  { account := "alice.near", amount := 10 ^ 24, action_type := ActionType.Mint }

/-- A market with mint fee 30 bps and one pending Mint action of `1e24`
registered by alice under tag `"mint_9"`. -/
def C6market : Contract :=
  { params := exampleParams, state := freshState,
    long_token := "long.near", short_token := "short.near",
    oracle := "oracle.near", fee_collector := "fees.near",
    owner := "owner.near", guardian := "guard.near",
    user_deposits := [],
    pending_actions := [("mint_9", C6action)] }

/-- C6 witness: spec Example 2 — a matching deposit of `1e24` at mint fee
30 bps reconciles with fee `3e21` and net `997e21` minted on both sides,
zero unconsumed; an unknown tag refunds the full amount unchanged. -/
theorem C6_ft_on_transfer_reconciliation_witness :
    ft_on_transfer C6market "usdc.near" "alice.near" (10 ^ 24) "mint_9" = .ok
      ({ C6market with
         state := { C6market.state with
                    total_collateral := 997 * 10 ^ 21,
                    long_token_supply := 997 * 10 ^ 21,
                    short_token_supply := 997 * 10 ^ 21 },
         user_deposits := [("alice.near", 997 * 10 ^ 21)],
         pending_actions := [] },
       ({ mint_long := some ("alice.near", 997 * 10 ^ 21),
          mint_short := some ("alice.near", 997 * 10 ^ 21),
          fee_record := some (3 * 10 ^ 21) },
        0)) ∧
    ft_on_transfer C6market "usdc.near" "bob.near" 5 "mint_zzz" =
      .ok (C6market, (noMintEffects, 5)) := by
  have h := C6_ft_on_transfer_reconciliation C6market "usdc.near" "alice.near"
    "mint_9" (10 ^ 24) rfl (by decide) (by decide) (by decide) (by decide)
    (by decide) (by decide)
  have h2 := C6_ft_on_transfer_reconciliation C6market "usdc.near" "bob.near"
    "mint_zzz" 5 rfl (by decide) (by decide) (by decide) (by decide)
    (by decide) (by decide)
  constructor
  · exact h.1 C6action rfl rfl rfl rfl
  · exact h2.2.1 rfl

/-! ### C3: settlement happens exactly once — up to overlapping callbacks -/

lemma ft_on_transfer_preserves_settlement (c : Contract)
    (caller sender tag : String) (amount : Nat) (c2 : Contract)
    (eff : MintEffects) (u2 : Nat)
    (h : ft_on_transfer c caller sender amount tag = .ok (c2, (eff, u2))) :
    c2.state.is_settled = c.state.is_settled ∧
    c2.state.settlement_price = c.state.settlement_price ∧
    c2.state.settlement_factor = c.state.settlement_factor := by
  simp only [ft_on_transfer] at h
  split at h
  · exact Except.noConfusion h
  · split at h
    · injection h with h2
      injection h2 with hc hr
      subst hc
      exact ⟨rfl, rfl, rfl⟩
    · split at h
      · split at h
        · injection h with h2
          injection h2 with hc hr
          subst hc
          exact ⟨rfl, rfl, rfl⟩
        · split at h
          · exact Except.noConfusion h
          · split at h
            · exact Except.noConfusion h
            · split at h
              · exact Except.noConfusion h
              · injection h with h2
                injection h2 with hc hr
                subst hc
                exact ⟨rfl, rfl, rfl⟩
      · injection h with h2
        injection h2 with hc hr
        subst hc
        exact ⟨rfl, rfl, rfl⟩

lemma redeem_preserves_settlement (c : Contract) (long_amount short_amount : Nat)
    (c2 : Contract) (eff : RedeemEffects)
    (h : redeem c long_amount short_amount = .ok (c2, eff)) :
    c2.state.is_settled = c.state.is_settled ∧
    c2.state.settlement_price = c.state.settlement_price ∧
    c2.state.settlement_factor = c.state.settlement_factor := by
  unfold redeem at h
  split at h
  · exact Except.noConfusion h
  · split at h
    · exact Except.noConfusion h
    · split at h
      · exact Except.noConfusion h
      · split at h
        · exact Except.noConfusion h
        · split at h
          · exact Except.noConfusion h
          · split at h
            · exact Except.noConfusion h
            · injection h with h2
              injection h2 with hc hr
              subst hc
              exact ⟨rfl, rfl, rfl⟩

/-- C3 (amended): once a market is settled, the `settle` entry point is
always rejected, and from any settled state with no price callback in
flight every step of the instance preserves `is_settled`,
`settlement_price` and `settlement_factor` and spawns no new callback — so
settlement then happened exactly once and its values are immutable.  The
finalization continuation itself, however, has no `is_settled` guard, so
when two `settle` calls are accepted before either callback runs, the
second callback overwrites the stored price and factor and re-charges the
settle fee (see the counterexample). -/
theorem C3_settlement_immutable_when_quiescent (w w2 : World)
    (hstep : Step w w2)
    (hs : w.c.state.is_settled = true) (hq : w.inflight = 0) :
    (∀ t, settle w.c t = .error .settlementPaused ∨
      settle w.c t = .error .alreadySettled) ∧
    w2.c.state.is_settled = true ∧ w2.inflight = 0 ∧
    w2.c.state.settlement_price = w.c.state.settlement_price ∧
    w2.c.state.settlement_factor = w.c.state.settlement_factor := by
  have hrej : ∀ t, settle w.c t = .error .settlementPaused ∨
      settle w.c t = .error .alreadySettled := by
    intro t
    unfold settle
    by_cases hp : w.c.state.paused_settle = true
    · left
      rw [if_pos hp]
    · right
      rw [if_neg hp, if_pos hs]
  refine ⟨hrej, ?_⟩
  cases hstep with
  | settleCall t hok =>
      rcases hrej t with h | h
      · exact Except.noConfusion (h.symm.trans hok)
      · exact Except.noConfusion (h.symm.trans hok)
  | oracleEmpty hpos => exact absurd hpos (by omega)
  | oraclePrice price c2 feeRec hpos hfin => exact absurd hpos (by omega)
  | createPos caller amount block_index c2 tag hok =>
      exfalso
      unfold create_position at hok
      by_cases hp : w.c.state.paused_mint = true
      · rw [if_pos hp] at hok
        exact Except.noConfusion hok
      · rw [if_neg hp, if_pos hs] at hok
        exact Except.noConfusion hok
  | transferIn caller sender tag amount c2 eff unconsumed hok =>
      have hpres := ft_on_transfer_preserves_settlement w.c caller sender tag
        amount c2 eff unconsumed hok
      exact ⟨hpres.1.trans hs, hq, hpres.2.1, hpres.2.2⟩
  | redeemCall long_amount short_amount c2 eff hok =>
      have hpres := redeem_preserves_settlement w.c long_amount short_amount
        c2 eff hok
      exact ⟨hpres.1.trans hs, hq, hpres.2.1, hpres.2.2⟩
  | pauseCall pm ps => exact ⟨hs, hq, rfl, rfl⟩

/-- The tiny market used in the C3 trace: band `0..2`, maturity 10, zero
fees. -/
def C3params : MarketParams :=
  { underlying := "wrap.near", quote := "usdc.near", maturity := 10,
    strike_k := 1, lower_bound_l := 0, upper_bound_u := 2,
    mint_fee_bps := 0, settle_fee_bps := 0, redeem_fee_bps := 0 }

/-- The C3 market as freshly constructed. -/
def C3contract0 : Contract :=
  { params := C3params, state := freshState, long_token := "long.near",
    short_token := "short.near", oracle := "oracle.near",
    fee_collector := "fees.near", owner := "owner.near",
    guardian := "guard.near", user_deposits := [], pending_actions := [] }

/-- The C3 market settled at the given price (any price of the trace is
above the upper bound 2, so the factor is `SCALE`). -/
def C3settled (price : Nat) : Contract :=
  { C3contract0 with
    state := { freshState with
               is_settled := true,
               settlement_price := some price,
               settlement_factor := some SCALE } }

/-- C3 witness: a settled quiescent market keeps its settlement price
across a further (pause) step. -/
theorem C3_settlement_immutable_when_quiescent_witness :
    (C3settled 5).state.settlement_price = some 5 ∧
    (set_paused (C3settled 5) true true).state.settlement_price = some 5 := by
  have h := C3_settlement_immutable_when_quiescent
    { c := C3settled 5, inflight := 0 }
    { c := set_paused (C3settled 5) true true, inflight := 0 }
    (Step.pauseCall { c := C3settled 5, inflight := 0 } true true) rfl rfl
  refine ⟨rfl, ?_⟩
  rw [h.2.2.2.1]
  rfl

/-- C3 counterexample: two `settle` calls are accepted while the market is
still unsettled; the first callback settles the market at price 5; the
market is then a reachable settled state from which the second, still
pending callback — `finalize_settlement` carries no `is_settled` guard —
executes and overwrites the stored settlement price with 7. -/
theorem C3_counterexample :
    Reachable { c := C3settled 5, inflight := 1 } ∧
    (C3settled 5).state.is_settled = true ∧
    Step { c := C3settled 5, inflight := 1 } { c := C3settled 7, inflight := 0 } ∧
    (C3settled 5).state.settlement_price = some 5 ∧
    (C3settled 7).state.settlement_price = some 7 := by
  refine ⟨?_, rfl, ?_, rfl, rfl⟩
  · have h0 : Reachable { c := C3contract0, inflight := 0 } :=
      Reachable.init C3params "long.near" "short.near" "oracle.near"
        "fees.near" "owner.near" "guard.near" 0 C3contract0 rfl
    have h1 : Reachable { c := C3contract0, inflight := 1 } :=
      Reachable.step _ _ h0
        (Step.settleCall { c := C3contract0, inflight := 0 } 10 rfl)
    have h2 : Reachable { c := C3contract0, inflight := 2 } :=
      Reachable.step _ _ h1
        (Step.settleCall { c := C3contract0, inflight := 1 } 10 rfl)
    exact Reachable.step _ _ h2
      (Step.oraclePrice { c := C3contract0, inflight := 2 } 5 (C3settled 5)
        none (by decide) rfl)
  · exact Step.oraclePrice { c := C3settled 5, inflight := 1 } 7 (C3settled 7)
      none (by decide) rfl

end DeltaJambo
